import Mathlib

/-!
Verification of the Gateway & Session-Authorization layer of the Medical-Atlas
portal.  The definitions below are a shallow embedding of the TypeScript route
handlers and middleware:

* `middleware_v1` / `matcher_v1` — the current Next.js middleware
  (`frontend/middleware.ts`, first document): admin-route gating with a
  structured-cookie read falling back to a manual `Cookie`-header parse.
* `middleware_v2` / `matcher_v2` — the superseded middleware variant
  (second document in `frontend/middleware.ts`): clears the `user_role`
  cookie on every visit to `/` and gates admin routes from the structured
  cookie only.
* `loginPOST` — the login handler (`app/api/dashboard-stats/route.ts`,
  second document: `POST`).
* `adminGET` — the admin resource proxy (`app/dashboard/page.tsx`, second
  document: `GET`), with the doctor-record `id`/`doctor_id` normalization.
* `predictPOST`, `normalizePrediction`, `mockPrediction` — the prediction
  proxy (`app/dashboard/page.tsx`, third document).

JavaScript strings are modelled as Lean `String`, JS numbers as `ℚ`
(the claims under scrutiny only exercise exact decimal arithmetic),
JSON values as the inductive `Json`, and the network as an explicit
outcome parameter handed to each handler.
-/

namespace MedicalAtlas

/-! ### JavaScript string primitives -/

/-- `c` counts as a word character for the regex `\b` boundary (`[A-Za-z0-9_]`). -/
def isWordChar (c : Char) : Bool := c.isAlphanum || c = '_'

/-- JS `String.prototype.toLowerCase` (ASCII range, which is all the code compares). -/
def toLowerString (s : String) : String := String.mk (s.data.map Char.toLower)

/-- Strip leading and trailing whitespace from a character list. -/
def trimChars (cs : List Char) : List Char :=
  ((cs.dropWhile Char.isWhitespace).reverse.dropWhile Char.isWhitespace).reverse

/-- JS `String.prototype.trim`. -/
def trimString (s : String) : String := String.mk (trimChars s.data)

/-- Does list `p` lead list `s`? -/
def strLeads : List Char → List Char → Bool
  | [], _ => true
  | _ :: _, [] => false
  | p :: ps, c :: cs => p == c && strLeads ps cs

/-- JS `String.prototype.startsWith`. -/
def startsWithStr (s pat : String) : Bool := strLeads pat.data s.data

/-! ### Session Gate (middleware.ts)

The request carries the structured cookie accessor value
(`request.cookies.get("user_role")?.value`) and the raw `Cookie` header
(`request.headers.get("cookie")`), each possibly absent. -/

structure GateRequest where
  path : String
  cookieUserRole : Option String
  cookieHeader : Option String
deriving DecidableEq, Repr

/-- A `Set-Cookie` emitted by the gate (`res.cookies.set(name, value, { maxAge })`). -/
structure ClearCookie where
  name : String
  value : String
  maxAge : Nat
deriving DecidableEq, Repr

inductive GateAction where
  | next
  | redirect (target : String)
deriving DecidableEq, Repr

structure GateResult where
  action : GateAction
  setCookie : Option ClearCookie
deriving DecidableEq, Repr

def gateNext : GateResult := { action := GateAction.next, setCookie := none }

def gateRedirectHome : GateResult := { action := GateAction.redirect "/", setCookie := none }

/-- JS truthiness test `!x` for a string-or-undefined value. -/
def jsFalsyStrOpt : Option String → Bool
  | none => true
  | some s => s == ""

/-- Characters of the literal part of the regex `\buser_role=([^;]+)`. -/
def userRoleKeyChars : List Char := "user_role=".data

/-- Try to strip the given key characters from the front of `cs`. -/
def stripKey : List Char → List Char → Option (List Char)
  | [], cs => some cs
  | _ :: _, [] => none
  | k :: ks, c :: cs => if c = k then stripKey ks cs else none

/-- The capture `([^;]+)` read greedily: everything up to the next `;` or the end. -/
def takeUntilSemi : List Char → List Char
  | [] => []
  | c :: cs => if c = ';' then [] else c :: takeUntilSemi cs

/-- Left-to-right scan of `cookieHeader.match(/\buser_role=([^;]+)/)`: at each
position whose previous character (`prev`) is not a word character, try to match
the literal key and a non-empty capture; otherwise move one character right. -/
def scanUserRole : Option Char → List Char → Option (List Char)
  | _, [] => none
  | prev, c :: cs =>
    let boundary : Bool :=
      match prev with
      | none => true
      | some p => ! isWordChar p
    match (if boundary then stripKey userRoleKeyChars (c :: cs) else none) with
    | some rest =>
      let cap := takeUntilSemi rest
      if cap = [] then scanUserRole (some c) cs else some cap
    | none => scanUserRole (some c) cs

/-- `const match = cookieHeader?.match(/\buser_role=([^;]+)/); match ? match[1].trim() : null`. -/
def parseUserRoleHeader : Option String → Option String
  | none => none
  | some h =>
    match scanUserRole none h.data with
    | some cap => some (trimString (String.mk cap))
    | none => none

/-- The role the current middleware works with: the structured cookie value,
falling back to the raw-header parse when that is empty (`let role = ...; if (!role) ...`). -/
def gateRole_v1 (req : GateRequest) : Option String :=
  if jsFalsyStrOpt req.cookieUserRole then parseUserRoleHeader req.cookieHeader
  else req.cookieUserRole

/-- Current middleware (first document of `middleware.ts`): gate `/admin` paths,
never touch cookies. -/
def middleware_v1 (req : GateRequest) : GateResult :=
  if startsWithStr req.path "/admin" then
    if jsFalsyStrOpt (gateRole_v1 req)
        || !(toLowerString ((gateRole_v1 req).getD "") == "admin") then
      gateRedirectHome
    else gateNext
  else gateNext

/-- Matcher of the current middleware: `["/admin", "/admin/:path*"]`. -/
def matcher_v1 (p : String) : Bool := p == "/admin" || startsWithStr p "/admin/"

/-- Superseded middleware (second document of `middleware.ts`): clear the
`user_role` cookie on `/` (the logout mechanism), gate `/admin` paths from the
structured cookie only. -/
def middleware_v2 (req : GateRequest) : GateResult :=
  if req.path == "/" then
    { action := GateAction.next
      setCookie := some { name := "user_role", value := "", maxAge := 0 } }
  else if startsWithStr req.path "/admin" then
    if jsFalsyStrOpt req.cookieUserRole
        || !(toLowerString (req.cookieUserRole.getD "") == "admin") then
      gateRedirectHome
    else gateNext
  else gateNext

/-- Matcher of the superseded middleware: `["/", "/admin", "/admin/:path*"]`. -/
def matcher_v2 (p : String) : Bool := p == "/" || p == "/admin" || startsWithStr p "/admin/"

/-- Modelled from the claim text: the `user_role` value read from the structured
cookie accessor or, when that is empty, parsed from the raw `Cookie` header. -/
def effectiveRole (req : GateRequest) : Option String :=
  match req.cookieUserRole with
  | some s => if s == "" then parseUserRoleHeader req.cookieHeader else some s
  | none => parseUserRoleHeader req.cookieHeader

/-- Modelled from the claim text: the request is authorized for admin routes when
the effective role is present and equals `"admin"` case-insensitively. -/
def claimAuthorized : Option String → Bool
  | none => false
  | some r => toLowerString r == "admin"

theorem effectiveRole_eq_gateRole (req : GateRequest) :
    effectiveRole req = gateRole_v1 req := by
  cases h : req.cookieUserRole with
  | none => simp [effectiveRole, gateRole_v1, jsFalsyStrOpt, h]
  | some s =>
    by_cases hs : s = "" <;>
      simp [effectiveRole, gateRole_v1, jsFalsyStrOpt, h, hs]

theorem gate_condition_norm (role : Option String) :
    (jsFalsyStrOpt role || !(toLowerString (role.getD "") == "admin"))
      = !(claimAuthorized role) := by
  cases role with
  | none =>
    have h : (toLowerString "" == "admin") = false := by decide
    simp [jsFalsyStrOpt, claimAuthorized, h]
  | some s =>
    by_cases hs : s = ""
    · subst hs
      have h : (toLowerString "" == "admin") = false := by decide
      simp [jsFalsyStrOpt, claimAuthorized, h]
    · simp [jsFalsyStrOpt, claimAuthorized, hs]

/-- C1: for every request whose path is under the admin route prefix, the
current Session Gate redirects to the entry route `/` exactly when the
`user_role` value — read from the structured cookie accessor, or, when that is
empty, parsed from the raw `Cookie` header — is absent or differs from
`"admin"` case-insensitively, and lets the request proceed when it compares
equal to `"admin"`. -/
theorem admin_gate_role_check (req : GateRequest)
    (h : startsWithStr req.path "/admin" = true) :
    middleware_v1 req =
      (if claimAuthorized (effectiveRole req) then gateNext else gateRedirectHome) := by
  unfold middleware_v1
  rw [h, ← effectiveRole_eq_gateRole, gate_condition_norm]
  cases hca : claimAuthorized (effectiveRole req) <;> simp [hca]

def c1Request : GateRequest :=
  { path := "/admin/settings"
    cookieUserRole := none
    cookieHeader := some "session=1; user_role=ADMIN" }

/-- C1 witness: a concrete admin request whose role arrives only in the raw
`Cookie` header, evaluated through `admin_gate_role_check`. -/
theorem admin_gate_role_check_witness :
    startsWithStr c1Request.path "/admin" = true ∧
      middleware_v1 c1Request =
        (if claimAuthorized (effectiveRole c1Request) then gateNext else gateRedirectHome) :=
  ⟨by decide, admin_gate_role_check c1Request (by decide)⟩

def c2Request : GateRequest :=
  { path := "/"
    cookieUserRole := some "Doctor"
    cookieHeader := some "user_role=Doctor" }

/-- C2 counterexample: in the current Session Gate a request to the entry route
`/` produces a plain pass-through response that sets no cookie at all (and the
middleware matcher does not even cover `/`), refuting the claim that visiting
`/` always empties the `user_role` cookie. -/
theorem entry_route_clear_counterexample :
    (middleware_v1 c2Request).setCookie = none ∧
      middleware_v1 c2Request = gateNext ∧
      matcher_v1 "/" = false := by
  refine ⟨rfl, rfl, ?_⟩
  decide

/-- C2 amended: in the superseded clearing variant of the gate — whose matcher
does cover `/` — every request to the entry route continues with a response
that sets `user_role` to the empty value with max-age 0; the current variant
sets no cookie and its matcher excludes `/`. -/
theorem entry_route_clears_cookie_v2 (req : GateRequest) (h : req.path = "/") :
    middleware_v2 req =
      { action := GateAction.next
        setCookie := some { name := "user_role", value := "", maxAge := 0 } } ∧
      matcher_v2 "/" = true ∧
      (middleware_v1 req).setCookie = none ∧
      matcher_v1 "/" = false := by
  refine ⟨?_, by decide, ?_, by decide⟩
  · simp [middleware_v2, h]
  · unfold middleware_v1
    by_cases hp : startsWithStr req.path "/admin" = true
    · rw [hp]
      by_cases hc : (jsFalsyStrOpt (gateRole_v1 req)
          || !(toLowerString ((gateRole_v1 req).getD "") == "admin")) = true <;>
        simp [hc, gateNext, gateRedirectHome]
    · simp [hp, gateNext]

/-- C2 amended witness: the concrete entry-route request with a live session
cookie, evaluated through `entry_route_clears_cookie_v2`. -/
theorem entry_route_clears_cookie_v2_witness :
    c2Request.path = "/" ∧
      (middleware_v2 c2Request =
        { action := GateAction.next
          setCookie := some { name := "user_role", value := "", maxAge := 0 } } ∧
        matcher_v2 "/" = true ∧
        (middleware_v1 c2Request).setCookie = none ∧
        matcher_v1 "/" = false) :=
  ⟨rfl, entry_route_clears_cookie_v2 c2Request rfl⟩

/-! ### Session Issuer (`POST` of `app/api/dashboard-stats/route.ts`)

Request-body fields are arbitrary JavaScript values; destructuring a missing
key yields `undefined` (`JSVal.undef`). -/

inductive JSVal where
  | undef
  | null
  | bool (b : Bool)
  | num (n : Int)
  | str (s : String)
deriving DecidableEq, Repr

/-- JS truthiness of a value (`!x` is its negation). -/
def JSVal.truthy : JSVal → Bool
  | .undef => false
  | .null => false
  | .bool b => b
  | .num n => n != 0
  | .str s => s != ""

/-- JS `String(x)` on the values a login body can hold. -/
def JSVal.toStr : JSVal → String
  | .undef => "undefined"
  | .null => "null"
  | .bool b => if b then "true" else "false"
  | .num n => toString n
  | .str s => s

/-- `const { doctor_id, password } = body ?? {}`. -/
structure LoginBody where
  doctor_id : JSVal
  password : JSVal
deriving DecidableEq, Repr

def demoDoctorId : String := "123456"

def demoPassword : String := "password"

/-- The credential pair the handler forwards to the backend, or `none` when the
400-validation (`!doctor_id || password === undefined`) rejects the body before
any backend call: `doctorIdStr = String(doctor_id).trim()`,
`passwordStr = typeof password === "string" ? password : ""`. -/
def forwardedCredentials (b : LoginBody) : Option (String × String) :=
  if b.doctor_id.truthy = false ∨ b.password = JSVal.undef then none
  else
    some (trimString b.doctor_id.toStr,
      match b.password with
      | JSVal.str s => s
      | _ => "")

/-- The backend error `detail` field as the handler reads it: an array (only its
first element's `msg` matters), a string, or anything else. -/
inductive DetailField where
  | absent
  | str (s : String)
  | arr (firstMsg : Option String)
  | other
deriving DecidableEq, Repr

/-- `Array.isArray(detail) ? detail[0]?.msg : typeof detail === "string" ? detail : null`. -/
def detailMsg : DetailField → Option String
  | .arr firstMsg => firstMsg
  | .str s => some s
  | _ => none

/-- JS `v || fallback` for a string-or-null value (empty strings are falsy). -/
def jsOrString (v : Option String) (fallback : String) : String :=
  match v with
  | some s => if s = "" then fallback else s
  | none => fallback

/-- The JSON body of a backend `/login` reply, as the handler consumes it. -/
structure LoginData where
  role : JSVal
  detail : DetailField
  access_token : JSVal
  refresh_token : JSVal
  token_type : JSVal
  expires_in : JSVal
deriving DecidableEq, Repr

/-- `{}` — the data used when the reply body is not JSON. -/
def emptyLoginData : LoginData :=
  { role := JSVal.undef, detail := DetailField.absent, access_token := JSVal.undef
    refresh_token := JSVal.undef, token_type := JSVal.undef, expires_in := JSVal.undef }

/-- Outcome of the backend `fetch`: a reply with an HTTP status, a
content-type flag and a (parsed) body, or a thrown transport failure. -/
inductive LoginBackendOutcome where
  | reply (status : Nat) (isJson : Bool) (data : LoginData)
  | transportFailure
deriving DecidableEq, Repr

/-- `response.ok`: status in the 2xx range. -/
def statusOk (s : Nat) : Bool := decide (200 ≤ s ∧ s ≤ 299)

/-- The session cookie set via `res.cookies.set("user_role", role, ...)`
(`sameSite` is always `lax` and `path` always `/`; omitted). -/
structure SessionCookie where
  name : String
  value : String
  httpOnly : Bool
  maxAge : Nat
  secure : Bool
deriving DecidableEq, Repr

structure LoginResponse where
  status : Nat
  success : Bool
  role : Option String
  error : Option String
  access_token : Option JSVal
  refresh_token : Option JSVal
  token_type : Option JSVal
  expires_in : Option JSVal
  cookie : Option SessionCookie
deriving DecidableEq, Repr

def requiredFieldsResponse : LoginResponse :=
  { status := 400, success := false, role := none
    error := some "Doctor ID and password are required"
    access_token := none, refresh_token := none, token_type := none
    expires_in := none, cookie := none }

/-- The synthesized demo session (`{ success: true, role: "Doctor" }` plus the
`user_role=Doctor` cookie; `secure` is not passed, hence false). -/
def demoSuccessResponse : LoginResponse :=
  { status := 200, success := true, role := some "Doctor", error := none
    access_token := none, refresh_token := none, token_type := none
    expires_in := none
    cookie := some { name := "user_role", value := "Doctor", httpOnly := true
                     maxAge := 86400, secure := false } }

def serviceUnavailableResponse : LoginResponse :=
  { status := 503, success := false, role := none
    error := some "Login service unavailable. Is the backend running on port 8000?"
    access_token := none, refresh_token := none, token_type := none
    expires_in := none, cookie := none }

def authFailedResponse (status : Nat) : LoginResponse :=
  { status := status, success := false, role := none
    error := some "Authentication failed"
    access_token := none, refresh_token := none, token_type := none
    expires_in := none, cookie := none }

/-- The login handler.  `body` is the parsed request body (`none` when
`request.json()` threw, handled by the outer catch), `isSecure` the HTTPS
test on the inbound request, `outcome` the result of the backend call.
The final `authFailedResponse 401` is reached exactly when the reply was 2xx
but not JSON (both source `if`s fall through). -/
def loginPOST (body : Option LoginBody) (isSecure : Bool)
    (outcome : LoginBackendOutcome) : LoginResponse :=
  match body with
  | none => authFailedResponse 500
  | some b =>
    match forwardedCredentials b with
    | none => requiredFieldsResponse
    | some (doctorIdStr, passwordStr) =>
      match outcome with
      | LoginBackendOutcome.transportFailure =>
        if doctorIdStr = demoDoctorId ∧ passwordStr = demoPassword then
          demoSuccessResponse
        else serviceUnavailableResponse
      | LoginBackendOutcome.reply status isJson data =>
        let d := if isJson then data else emptyLoginData
        if statusOk status && isJson then
          match (if d.role.truthy then d.role else JSVal.str "Doctor") with
          | JSVal.str s =>
            let role := if toLowerString s == "admin" then "Admin" else s
            { status := 200, success := true, role := some role, error := none
              access_token := some d.access_token
              refresh_token := some d.refresh_token
              token_type := some d.token_type
              expires_in := some d.expires_in
              cookie := some { name := "user_role", value := role
                               httpOnly := true, maxAge := 86400
                               secure := isSecure } }
          | _ =>
            -- a truthy non-string role has no `toLowerCase`: the thrown
            -- TypeError lands in the same catch as a transport failure
            if doctorIdStr = demoDoctorId ∧ passwordStr = demoPassword then
              demoSuccessResponse
            else serviceUnavailableResponse
        else if statusOk status then authFailedResponse 401
        else
          if doctorIdStr = demoDoctorId ∧ passwordStr = demoPassword then
            demoSuccessResponse
          else
            { status := status, success := false, role := none
              error := some (if status = 422 then
                  jsOrString (detailMsg d.detail)
                    "Doctor ID must be exactly 6 digits and password is required."
                else jsOrString (detailMsg d.detail) "Incorrect ID or password.")
              access_token := none, refresh_token := none, token_type := none
              expires_in := none, cookie := none }

/-- C3: a login request carrying exactly the demo credentials is answered with
the synthesized `{ success: true, role: "Doctor" }` session — including the
`user_role=Doctor` cookie — whenever the backend replies non-2xx or the
backend call throws a transport failure. -/
theorem login_demo_fallback (b : LoginBody) (isSecure : Bool)
    (outcome : LoginBackendOutcome)
    (hd : b.doctor_id = JSVal.str demoDoctorId)
    (hp : b.password = JSVal.str demoPassword)
    (hfail : outcome = LoginBackendOutcome.transportFailure ∨
      ∃ st j d, outcome = LoginBackendOutcome.reply st j d ∧ statusOk st = false) :
    loginPOST (some b) isSecure outcome = demoSuccessResponse := by
  obtain ⟨did, pw⟩ := b
  simp only at hd hp
  subst hd
  subst hp
  have hcred : forwardedCredentials
      { doctor_id := JSVal.str demoDoctorId, password := JSVal.str demoPassword }
        = some (demoDoctorId, demoPassword) := by decide
  rcases hfail with hf | ⟨st, j, d, hf, hst⟩
  · subst hf
    simp [loginPOST, hcred]
  · subst hf
    simp [loginPOST, hcred, hst]

def demoBody : LoginBody :=
  { doctor_id := JSVal.str demoDoctorId, password := JSVal.str demoPassword }

/-- C3 witness: the demo credentials against a transport failure, evaluated
through `login_demo_fallback`. -/
theorem login_demo_fallback_witness :
    demoBody.doctor_id = JSVal.str demoDoctorId ∧
      demoBody.password = JSVal.str demoPassword ∧
      loginPOST (some demoBody) false LoginBackendOutcome.transportFailure =
        demoSuccessResponse :=
  ⟨rfl, rfl,
    login_demo_fallback demoBody false LoginBackendOutcome.transportFailure rfl rfl
      (Or.inl rfl)⟩

/-- C4: a login body whose `doctor_id` is absent or whose `password` is exactly
`undefined` is rejected with the 400 response and no credentials are forwarded
to the backend (the result is the same for every backend outcome); a password
equal to the empty string passes validation and is forwarded as `""`. -/
theorem login_validation_400 (b : LoginBody) (isSecure : Bool)
    (outcome : LoginBackendOutcome) :
    ((b.doctor_id = JSVal.undef ∨ b.password = JSVal.undef) →
      loginPOST (some b) isSecure outcome = requiredFieldsResponse ∧
        forwardedCredentials b = none) ∧
    (b.doctor_id.truthy = true → b.password = JSVal.str "" →
      forwardedCredentials b = some (trimString b.doctor_id.toStr, "")) := by
  constructor
  · intro h
    have hnone : forwardedCredentials b = none := by
      rcases h with h | h
      · simp [forwardedCredentials, h, JSVal.truthy]
      · simp [forwardedCredentials, h]
    exact ⟨by simp [loginPOST, hnone], hnone⟩
  · intro ht hp
    simp [forwardedCredentials, ht, hp]

def c4BadBody : LoginBody := { doctor_id := JSVal.str "999999", password := JSVal.undef }

def c4EmptyPwBody : LoginBody := { doctor_id := JSVal.str "123456", password := JSVal.str "" }

/-- C4 witness: an `undefined` password is rejected before the backend call,
and an empty-string password is forwarded verbatim, both evaluated through
`login_validation_400`. -/
theorem login_validation_400_witness :
    (loginPOST (some c4BadBody) false LoginBackendOutcome.transportFailure =
        requiredFieldsResponse ∧
      forwardedCredentials c4BadBody = none) ∧
    forwardedCredentials c4EmptyPwBody = some ("123456", "") := by
  refine ⟨(login_validation_400 c4BadBody false
      LoginBackendOutcome.transportFailure).1 (Or.inr rfl), ?_⟩
  have h := (login_validation_400 c4EmptyPwBody false
      LoginBackendOutcome.transportFailure).2 (by decide) rfl
  have ht : trimString (JSVal.toStr c4EmptyPwBody.doctor_id) = "123456" := by decide
  rw [h, ht]

def c5Body : LoginBody := { doctor_id := JSVal.str "111111", password := JSVal.str "pw" }

/-- C5 counterexample: with non-demo credentials and a transport failure the
handler does answer 503, but the error message is the full sentence
`"Login service unavailable. Is the backend running on port 8000?"`, not the
claimed `"Login service unavailable."`. -/
theorem login_unavailable_message_counterexample :
    (loginPOST (some c5Body) false LoginBackendOutcome.transportFailure).status = 503 ∧
      (loginPOST (some c5Body) false LoginBackendOutcome.transportFailure).error ≠
        some "Login service unavailable." ∧
      (loginPOST (some c5Body) false LoginBackendOutcome.transportFailure).error =
        some "Login service unavailable. Is the backend running on port 8000?" := by
  exact ⟨rfl, by decide, rfl⟩

/-- C5 amended: for every login request whose forwarded credentials are not the
demo pair, a transport failure of the backend call produces status 503 with the
error message "Login service unavailable. Is the backend running on port
8000?". -/
theorem login_transport_failure_503 (b : LoginBody) (isSecure : Bool)
    (i p : String)
    (hcred : forwardedCredentials b = some (i, p))
    (hnd : ¬(i = demoDoctorId ∧ p = demoPassword)) :
    loginPOST (some b) isSecure LoginBackendOutcome.transportFailure =
      serviceUnavailableResponse := by
  simp [loginPOST, hcred, hnd]

/-- C5 amended witness: concrete non-demo credentials against a transport
failure, evaluated through `login_transport_failure_503`. -/
theorem login_transport_failure_503_witness :
    forwardedCredentials c5Body = some ("111111", "pw") ∧
      ¬(("111111" : String) = demoDoctorId ∧ ("pw" : String) = demoPassword) ∧
      loginPOST (some c5Body) false LoginBackendOutcome.transportFailure =
        serviceUnavailableResponse :=
  ⟨by decide, by decide,
    login_transport_failure_503 c5Body false "111111" "pw" (by decide) (by decide)⟩

/-- C10: a login body whose `doctor_id` key holds a falsy JavaScript value —
the empty string, the number 0, `false`, or `null` — is answered with the same
400 response as an absent `doctor_id`, for every backend outcome, and no
credentials are forwarded to the backend. -/
theorem login_falsy_doctor_id (pw : JSVal) (isSecure : Bool)
    (outcome : LoginBackendOutcome) (did : JSVal)
    (h : did = JSVal.str "" ∨ did = JSVal.num 0 ∨ did = JSVal.bool false ∨
      did = JSVal.null) :
    loginPOST (some { doctor_id := did, password := pw }) isSecure outcome =
        requiredFieldsResponse ∧
      loginPOST (some { doctor_id := did, password := pw }) isSecure outcome =
        loginPOST (some { doctor_id := JSVal.undef, password := pw }) isSecure outcome ∧
      forwardedCredentials { doctor_id := did, password := pw } = none := by
  have ht : did.truthy = false := by
    rcases h with h | h | h | h <;> subst h <;> rfl
  have hnone : forwardedCredentials { doctor_id := did, password := pw } = none := by
    simp [forwardedCredentials, ht]
  have hnone2 : forwardedCredentials { doctor_id := JSVal.undef, password := pw } = none := by
    simp [forwardedCredentials, JSVal.truthy]
  exact ⟨by simp [loginPOST, hnone], by simp [loginPOST, hnone, hnone2], hnone⟩

/-- C10 witness: `doctor_id = 0` with a well-formed password, evaluated through
`login_falsy_doctor_id`. -/
theorem login_falsy_doctor_id_witness :
    (JSVal.num 0 = JSVal.str "" ∨ JSVal.num 0 = JSVal.num 0 ∨
        JSVal.num 0 = JSVal.bool false ∨ JSVal.num 0 = JSVal.null) ∧
      (loginPOST (some { doctor_id := JSVal.num 0, password := JSVal.str "x" }) false
          LoginBackendOutcome.transportFailure = requiredFieldsResponse ∧
        loginPOST (some { doctor_id := JSVal.num 0, password := JSVal.str "x" }) false
            LoginBackendOutcome.transportFailure =
          loginPOST (some { doctor_id := JSVal.undef, password := JSVal.str "x" }) false
            LoginBackendOutcome.transportFailure ∧
        forwardedCredentials { doctor_id := JSVal.num 0, password := JSVal.str "x" } =
          none) :=
  ⟨Or.inr (Or.inl rfl),
    login_falsy_doctor_id (JSVal.str "x") false LoginBackendOutcome.transportFailure
      (JSVal.num 0) (Or.inr (Or.inl rfl))⟩

/-! ### JSON values

JSON as produced by `JSON.parse` (no `undefined`, no duplicate object keys,
numbers exact — the handlers only compare and select them). -/

inductive Json where
  | null
  | bool (b : Bool)
  | num (q : ℚ)
  | str (s : String)
  | arr (elems : List Json)
  | obj (fields : List (String × Json))

/-- First binding of `key` in an object's field list. -/
def lookupField : List (String × Json) → String → Option Json
  | [], _ => none
  | (k, v) :: rest, key => if k == key then some v else lookupField rest key

/-- Property read `data[key]` (`undefined` — `none` — on non-objects). -/
def jsonGet : Json → String → Option Json
  | Json.obj fields, key => lookupField fields key
  | _, _ => none

def hasField : List (String × Json) → String → Bool
  | [], _ => false
  | (k, _) :: rest, key => k == key || hasField rest key

/-! ### Prediction Proxy (third document of `app/dashboard/page.tsx`) -/

structure Prediction where
  resistant : ℚ
  probability : Option ℚ
deriving DecidableEq, Repr

/-- `data && typeof data === "object" && "resistant" in data` (JSON arrays have
no `resistant` property; `null` is excluded by the first conjunct). -/
def isObjectWithResistant : Json → Bool
  | Json.obj fields => hasField fields "resistant"
  | _ => false

/-- `r === true || r === 1`. -/
def resistantFlag : Option Json → Bool
  | some (Json.bool true) => true
  | some (Json.num q) => q == 1
  | _ => false

/-- `typeof data[key] === "number" ? data[key] : undefined`. -/
def numericField (data : Json) (key : String) : Option ℚ :=
  match jsonGet data key with
  | some (Json.num q) => some q
  | _ => none

/-- `normalizePrediction`: clamp the backend reply to
`{ resistant: 0|1, probability?: number }`. -/
def normalizePrediction (data : Json) : Prediction :=
  if isObjectWithResistant data then
    { resistant := if resistantFlag (jsonGet data "resistant") then 1 else 0
      probability :=
        match numericField data "probability" with
        | some q => some q
        | none => numericField data "confidence" }
  else { resistant := 0, probability := none }

/-! JS `Number(x)` on JSON values; `none` stands for `NaN`.  Strings follow the
decimal forms `[+-]?digits`, `[+-]?digits.digits`, `[+-]?.digits`,
`[+-]?digits.` and the empty/whitespace string (`0`); exponent, hex and
`Infinity` forms, and the stringification of nonempty arrays, are not modelled
(no prediction-body field uses them). -/

def allDigits (cs : List Char) : Bool := cs.all Char.isDigit

def digitsVal (cs : List Char) : Nat :=
  cs.foldl (fun a c => a * 10 + (c.toNat - 48)) 0

def parseDecimal (cs : List Char) : Option ℚ :=
  let ip := cs.takeWhile (fun c => c ≠ '.')
  match cs.dropWhile (fun c => c ≠ '.') with
  | [] => if ip ≠ [] ∧ allDigits ip then some (digitsVal ip) else none
  | _ :: fp =>
    if allDigits ip ∧ allDigits fp ∧ (ip ≠ [] ∨ fp ≠ []) then
      some ((digitsVal ip : ℚ) + (digitsVal fp : ℚ) / (10 ^ fp.length))
    else none

def parseJSNumber (s : String) : Option ℚ :=
  match trimChars s.data with
  | [] => some 0
  | '-' :: cs => (parseDecimal cs).map (fun q => -q)
  | '+' :: cs => parseDecimal cs
  | cs => parseDecimal cs

def jsNumber : Json → Option ℚ
  | Json.null => some 0
  | Json.bool b => some (if b then 1 else 0)
  | Json.num q => some q
  | Json.str s => parseJSNumber s
  | Json.arr [] => some 0
  | Json.arr (_ :: _) => none
  | Json.obj _ => none

/-- `Number(body?.[key]) || 0` (`|| 0` sends `NaN` to `0` and fixes `0`). -/
def numOrZero (v : Option Json) : ℚ :=
  match v with
  | none => 0
  | some j =>
    match jsNumber j with
    | none => 0
    | some q => q

def mockAge (body : Json) : ℚ := numOrZero (jsonGet body "age")

def mockDuration (body : Json) : ℚ := numOrZero (jsonGet body "duration_days")

/-- `const score = (age / 100) * 0.4 + Math.min(duration / 30, 1) * 0.6`. -/
def mockScore (body : Json) : ℚ :=
  (mockAge body / 100) * (4 / 10) + min (mockDuration body / 30) 1 * (6 / 10)

/-- `mockPrediction` with the `Math.random()` draw passed in as `rnd ∈ [0, 1)`:
`probability = 0.7 + rnd * 0.25`. -/
def mockPrediction (body : Json) (rnd : ℚ) : Prediction :=
  { resistant := if mockScore body > 1 / 2 then 1 else 0
    probability := some (7 / 10 + rnd * (25 / 100)) }

/-- Outcome of the backend `/predict` call: a reply (its `ok` flag, whether the
content type is JSON, and the parsed body) or a thrown transport failure. -/
inductive PredictBackendOutcome where
  | reply (isOk : Bool) (isJson : Bool) (data : Json)
  | transportFailure

inductive PredictResponse where
  | success (status : Nat) (pred : Prediction)
  | failure (status : Nat) (error : String)

/-- The prediction handler.  `body` is the result of `request.json()` (a parse
error carries the exception message consumed by the outer catch); only a 2xx
reply with a JSON content type is normalized, every other backend outcome
falls back to the mock predictor. -/
def predictPOST (body : Except String Json) (outcome : PredictBackendOutcome)
    (rnd : ℚ) : PredictResponse :=
  match body with
  | Except.error msg => PredictResponse.failure 500 msg
  | Except.ok b =>
    match outcome with
    | PredictBackendOutcome.transportFailure =>
      PredictResponse.success 200 (mockPrediction b rnd)
    | PredictBackendOutcome.reply isOk isJson data =>
      if isOk && isJson then PredictResponse.success 200 (normalizePrediction data)
      else PredictResponse.success 200 (mockPrediction b rnd)

theorem lookupField_eq_none_of_hasField_false (fs : List (String × Json))
    (k : String) (h : hasField fs k = false) : lookupField fs k = none := by
  induction fs with
  | nil => rfl
  | cons kv rest ih =>
    obtain ⟨k0, v0⟩ := kv
    rw [hasField] at h
    rcases Bool.or_eq_false_iff.mp h with ⟨h1, h2⟩
    rw [lookupField, if_neg (by simp [h1]), ih h2]

theorem jsonGet_none_of_no_resistant (data : Json)
    (h : isObjectWithResistant data = false) : jsonGet data "resistant" = none := by
  cases data with
  | obj fs =>
    exact lookupField_eq_none_of_hasField_false fs "resistant"
      (by simpa [isObjectWithResistant] using h)
  | null => rfl
  | bool b => rfl
  | num q => rfl
  | str s => rfl
  | arr es => rfl

/-- Modelled from the claim text: `resistant` arriving as boolean `true` or the
number 1 maps to 1, anything else (or an absent field) maps to 0. -/
def claimResistantValue : Option Json → ℚ
  | some (Json.bool true) => 1
  | some (Json.num q) => if q = 1 then 1 else 0
  | _ => 0

/-- C6: a 2xx backend `/predict` reply with a JSON body is answered with the
normalized prediction and nothing else; the normalized `resistant` is 0 or 1,
equal to 1 exactly for an incoming boolean `true` or number 1, and
`probability` is the numeric `probability` field or, failing that, the numeric
`confidence` field; in particular `{resistant: true, confidence: 0.8}`
normalizes to `{resistant: 1, probability: 0.8}`. -/
theorem predict_normalization (b data : Json) (rnd : ℚ) :
    predictPOST (Except.ok b) (PredictBackendOutcome.reply true true data) rnd =
      PredictResponse.success 200 (normalizePrediction data) ∧
    ((normalizePrediction data).resistant = 0 ∨ (normalizePrediction data).resistant = 1) ∧
    (normalizePrediction data).resistant = claimResistantValue (jsonGet data "resistant") ∧
    (normalizePrediction data).probability =
      (if isObjectWithResistant data then
        (numericField data "probability").orElse (fun _ => numericField data "confidence")
      else none) ∧
    normalizePrediction
        (Json.obj [("resistant", Json.bool true), ("confidence", Json.num (8 / 10))]) =
      { resistant := 1, probability := some (8 / 10) } := by
  refine ⟨rfl, ?_, ?_, ?_, rfl⟩
  · unfold normalizePrediction
    by_cases h : isObjectWithResistant data
    · simp only [h, if_true]
      by_cases h2 : resistantFlag (jsonGet data "resistant") <;> simp [h2]
    · simp [h]
  · unfold normalizePrediction
    by_cases h : isObjectWithResistant data
    · simp only [h, if_true]
      cases hg : jsonGet data "resistant" with
      | none => rfl
      | some j =>
        cases j with
        | bool bb => cases bb <;> rfl
        | num q =>
          by_cases hq : q = 1 <;>
            simp [claimResistantValue, resistantFlag, hq]
        | null => rfl
        | str s => rfl
        | arr es => rfl
        | obj fs => rfl
    · rw [jsonGet_none_of_no_resistant data (by simpa using h)]
      simp [h, claimResistantValue]
  · unfold normalizePrediction
    by_cases h : isObjectWithResistant data
    · simp only [h, if_true]
      cases numericField data "probability" <;> rfl
    · simp [h]

/-- C9: a 2xx JSON prediction payload that is not an object containing a
`resistant` key is reported as the plain non-resistant prediction
`{resistant: 0}` with no `probability`, not as a mock fallback or an error. -/
theorem predict_malformed_success (b data : Json) (rnd : ℚ)
    (h : isObjectWithResistant data = false) :
    predictPOST (Except.ok b) (PredictBackendOutcome.reply true true data) rnd =
      PredictResponse.success 200 { resistant := 0, probability := none } := by
  simp [predictPOST, normalizePrediction, h]

/-- C9 witness: a `null` payload on a 2xx JSON reply, evaluated through
`predict_malformed_success`. -/
theorem predict_malformed_success_witness :
    isObjectWithResistant Json.null = false ∧
      predictPOST (Except.ok (Json.obj []))
          (PredictBackendOutcome.reply true true Json.null) 0 =
        PredictResponse.success 200 { resistant := 0, probability := none } :=
  ⟨rfl, predict_malformed_success (Json.obj []) Json.null 0 rfl⟩

def c7Body : Json := Json.obj [("age", Json.num 80), ("duration_days", Json.num 30)]

/-- C7: every failed backend `/predict` call — non-2xx, 2xx without a JSON
content type, or a transport failure — is answered with the mock prediction,
whose `resistant` is 1 exactly when `0.4·(age/100) + 0.6·min(duration/30, 1) >
0.5` and whose probability lies in `[0.70, 0.95)` for every random draw in
`[0, 1)`; in particular `age = 80, duration_days = 30` yields `resistant = 1`. -/
theorem predict_mock_fallback (b : Json) (rnd : ℚ) (outcome : PredictBackendOutcome)
    (hr0 : 0 ≤ rnd) (hr1 : rnd < 1)
    (hfail : outcome = PredictBackendOutcome.transportFailure ∨
      ∃ isOk isJson data, outcome = PredictBackendOutcome.reply isOk isJson data ∧
        (isOk = false ∨ isJson = false)) :
    predictPOST (Except.ok b) outcome rnd =
        PredictResponse.success 200 (mockPrediction b rnd) ∧
      ((mockPrediction b rnd).resistant = 1 ↔
        (4 / 10 : ℚ) * (mockAge b / 100) + (6 / 10 : ℚ) * min (mockDuration b / 30) 1
          > 1 / 2) ∧
      (∃ p, (mockPrediction b rnd).probability = some p ∧
        (7 / 10 : ℚ) ≤ p ∧ p < 19 / 20) ∧
      (mockPrediction c7Body rnd).resistant = 1 := by
  refine ⟨?_, ?_, ?_, ?_⟩
  · rcases hfail with hf | ⟨isOk, isJson, data, hf, hok⟩
    · subst hf
      rfl
    · subst hf
      rcases hok with h | h <;> subst h <;> simp [predictPOST]
  · have hs : mockScore b =
        (4 / 10 : ℚ) * (mockAge b / 100) + (6 / 10 : ℚ) * min (mockDuration b / 30) 1 := by
      unfold mockScore
      ring
    rw [← hs]
    by_cases h : mockScore b > 1 / 2 <;> simp [mockPrediction, h]
  · have hm0 : 0 ≤ rnd * (25 / 100 : ℚ) := mul_nonneg hr0 (by norm_num)
    have hm1 : rnd * (25 / 100 : ℚ) < 25 / 100 := by nlinarith
    exact ⟨7 / 10 + rnd * (25 / 100), rfl, by linarith, by linarith⟩
  · have hage : mockAge c7Body = 80 := rfl
    have hdur : mockDuration c7Body = 30 := rfl
    have h : mockScore c7Body > 1 / 2 := by
      rw [mockScore, hage, hdur]
      norm_num [min_self]
    show (if mockScore c7Body > 1 / 2 then (1 : ℚ) else 0) = 1
    rw [if_pos h]

/-- C7 witness: the concrete `age = 80, duration_days = 30` body against a
transport failure with the random draw 0, evaluated through
`predict_mock_fallback`. -/
theorem predict_mock_fallback_witness :
    ((0 : ℚ) ≤ 0 ∧ (0 : ℚ) < 1) ∧
      (predictPOST (Except.ok c7Body) PredictBackendOutcome.transportFailure 0 =
          PredictResponse.success 200 (mockPrediction c7Body 0) ∧
        ((mockPrediction c7Body 0).resistant = 1 ↔
          (4 / 10 : ℚ) * (mockAge c7Body / 100) +
            (6 / 10 : ℚ) * min (mockDuration c7Body / 30) 1 > 1 / 2) ∧
        (∃ p, (mockPrediction c7Body 0).probability = some p ∧
          (7 / 10 : ℚ) ≤ p ∧ p < 19 / 20) ∧
        (mockPrediction c7Body 0).resistant = 1) :=
  ⟨⟨le_refl 0, by norm_num⟩,
    predict_mock_fallback c7Body 0 PredictBackendOutcome.transportFailure (le_refl 0)
      (by norm_num) (Or.inl rfl)⟩

/-! ### Resource Proxy — admin `GET` (second document of `app/dashboard/page.tsx`) -/

/-- Replace the value of the first binding of `k` (JSON objects carry no
duplicate keys), or append the binding when `k` is absent — the semantics of a
spread followed by an explicit key in an object literal. -/
def setField : List (String × Json) → String → Json → List (String × Json)
  | [], k, v => [(k, v)]
  | (k0, v0) :: rest, k, v =>
    if k0 == k then (k0, v) :: rest else (k0, v0) :: setField rest k v

/-- Drop every binding of `k`. -/
def removeField (d : List (String × Json)) (k : String) : List (String × Json) :=
  d.filter (fun kv => kv.1 != k)

/-- Write an optional value the way `JSON.stringify` serializes it: an
`undefined` value (`none`) leaves no key on the wire. -/
def setFieldWire (d : List (String × Json)) (k : String) (v : Option Json) :
    List (String × Json) :=
  match v with
  | some j => setField d k j
  | none => removeField d k

/-- JS `a ?? b` on property reads: `b` when `a` is `null` or `undefined`. -/
def nullishCoalesce (a b : Option Json) : Option Json :=
  match a with
  | some Json.null => b
  | none => b
  | some v => some v

/-- `{...d, doctor_id: d.doctor_id ?? d.id, id: d.id}` as it reaches the wire
(the source's `typeof d.id === "string" ? d.id : d.id` is `d.id` in both
branches). -/
def normalizeDoctorRecord (d : List (String × Json)) : List (String × Json) :=
  setFieldWire
    (setFieldWire d "doctor_id" (nullishCoalesce (lookupField d "doctor_id") (lookupField d "id")))
    "id" (lookupField d "id")

/-- One element of the backend array under
`{...d, doctor_id: ..., id: ...}`: reading `.doctor_id` on `null` throws (the
handler's catch turns that into the 500 response); spreading a primitive
yields an empty object (the index keys a spread array would contribute are not
modelled — no doctor payload is a primitive or an array). -/
def normalizeDoctorElem : Json → Option Json
  | Json.obj fields => some (Json.obj (normalizeDoctorRecord fields))
  | Json.null => none
  | _ => some (Json.obj (normalizeDoctorRecord []))

def mapNormalize : List Json → Option (List Json)
  | [] => some []
  | x :: xs =>
    match normalizeDoctorElem x, mapNormalize xs with
    | some y, some ys => some (y :: ys)
    | _, _ => none

/-- The configured backend base address (`NEXT_PUBLIC_API_URL` with its
loopback default). -/
def apiBase : String := "http://127.0.0.1:8000"

inductive AdminBackendOutcome where
  | reply (status : Nat) (body : Json)
  | transportFailure

inductive AdminResponse where
  | json (status : Nat) (body : Json)

def typeRequiredResponse : AdminResponse :=
  AdminResponse.json 400 (Json.obj [("error", Json.str "Type parameter required")])

def fetchFailedResponse (t : String) : AdminResponse :=
  AdminResponse.json 500
    (Json.obj [("error",
      Json.str ("Failed to fetch " ++ t ++ "s. Is the backend running at " ++ apiBase ++ "?"))])

/-- The admin `GET ?type=...` handler.  `ty` is `searchParams.get("type")`
(`null` or the raw string; the empty string is falsy and also rejected);
`outcome` is the backend call on `/admin/doctors` or `/admin/hospitals`, its
`body` already parsed (`.catch(() => ({}))` makes a non-JSON body `{}`).
Doctor collections arriving as arrays get each record normalized. -/
def adminGET (ty : Option String) (outcome : AdminBackendOutcome) : AdminResponse :=
  match ty with
  | none => typeRequiredResponse
  | some t =>
    if t = "" then typeRequiredResponse
    else
      match outcome with
      | AdminBackendOutcome.transportFailure => fetchFailedResponse t
      | AdminBackendOutcome.reply status body =>
        if statusOk status = false then AdminResponse.json status body
        else if t = "doctor" then
          match body with
          | Json.arr elems =>
            match mapNormalize elems with
            | some normalized => AdminResponse.json 200 (Json.arr normalized)
            | none => fetchFailedResponse t
          | _ => AdminResponse.json 200 body
        else AdminResponse.json 200 body

theorem lookupField_setField_self (d : List (String × Json)) (k : String) (v : Json) :
    lookupField (setField d k v) k = some v := by
  induction d with
  | nil => simp [setField, lookupField]
  | cons kv rest ih =>
    obtain ⟨k0, v0⟩ := kv
    by_cases h : k0 = k
    · subst h
      simp [setField, lookupField]
    · rw [setField, if_neg (by simp [h]), lookupField, if_neg (by simp [h]), ih]

theorem lookupField_setField_ne (d : List (String × Json)) (k k' : String) (v : Json)
    (hne : k' ≠ k) : lookupField (setField d k v) k' = lookupField d k' := by
  induction d with
  | nil => simp [setField, lookupField, Ne.symm hne]
  | cons kv rest ih =>
    obtain ⟨k0, v0⟩ := kv
    by_cases h : k0 = k
    · subst h
      rw [setField, if_pos (by simp), lookupField, if_neg (by simp [Ne.symm hne]),
        lookupField, if_neg (by simp [Ne.symm hne])]
    · rw [setField, if_neg (by simp [h])]
      rw [lookupField, lookupField]
      by_cases h0 : k0 = k'
      · simp [h0]
      · rw [if_neg (by simp [h0]), if_neg (by simp [h0]), ih]

theorem mapNormalize_objs (recs : List (List (String × Json))) :
    mapNormalize (recs.map Json.obj) =
      some (recs.map (fun r => Json.obj (normalizeDoctorRecord r))) := by
  induction recs with
  | nil => rfl
  | cons r rest ih => simp [mapNormalize, normalizeDoctorElem, ih]

def c8Record : List (String × Json) := [("doctor_id", Json.num 7), ("name", Json.str "B")]

/-- C8 counterexample: a successful doctor `GET` whose backend record carries
only `doctor_id` (no `id`) is returned unchanged — the `id` key stays absent,
refuting the claim that both keys are populated whichever one the backend
supplied. -/
theorem admin_doctor_id_counterexample :
    adminGET (some "doctor") (AdminBackendOutcome.reply 200 (Json.arr [Json.obj c8Record])) =
      AdminResponse.json 200 (Json.arr [Json.obj c8Record]) ∧
      lookupField (normalizeDoctorRecord c8Record) "id" = none ∧
      lookupField c8Record "doctor_id" = some (Json.num 7) := by
  exact ⟨rfl, rfl, rfl⟩

/-- C8 amended: on a successful doctor `GET` over an array of records, each
record is replaced by its normalization, and every record in which the backend
populated `id` (with a non-null value) comes back with both `id` and
`doctor_id` populated — `doctor_id` backfilled from `id` when absent or null.
A record supplying only `doctor_id` keeps it but gains no `id` key. -/
theorem admin_doctor_id_normalization (recs : List (List (String × Json))) :
    adminGET (some "doctor") (AdminBackendOutcome.reply 200 (Json.arr (recs.map Json.obj))) =
      AdminResponse.json 200
        (Json.arr (recs.map (fun r => Json.obj (normalizeDoctorRecord r)))) ∧
    ∀ r ∈ recs, ∀ v : Json, lookupField r "id" = some v → v ≠ Json.null →
      lookupField (normalizeDoctorRecord r) "id" = some v ∧
      ∃ w : Json, lookupField (normalizeDoctorRecord r) "doctor_id" = some w ∧
        w ≠ Json.null := by
  constructor
  · simp [adminGET, statusOk, mapNormalize_objs]
  · intro r _ v hv hvnull
    have hco : ∃ w : Json,
        nullishCoalesce (lookupField r "doctor_id") (lookupField r "id") = some w ∧
          w ≠ Json.null := by
      cases hd : lookupField r "doctor_id" with
      | none => exact ⟨v, by simp [nullishCoalesce, hv], hvnull⟩
      | some j =>
        cases j with
        | null => exact ⟨v, by simp [nullishCoalesce, hv], hvnull⟩
        | bool bb => exact ⟨Json.bool bb, rfl, by intro h; cases h⟩
        | num q => exact ⟨Json.num q, rfl, by intro h; cases h⟩
        | str s => exact ⟨Json.str s, rfl, by intro h; cases h⟩
        | arr es => exact ⟨Json.arr es, rfl, by intro h; cases h⟩
        | obj fs => exact ⟨Json.obj fs, rfl, by intro h; cases h⟩
    obtain ⟨w, hw, hwnull⟩ := hco
    constructor
    · rw [normalizeDoctorRecord, hw, hv]
      exact lookupField_setField_self _ "id" v
    · refine ⟨w, ?_, hwnull⟩
      rw [normalizeDoctorRecord, hw, hv]
      rw [setFieldWire, setFieldWire]
      rw [lookupField_setField_ne _ "id" "doctor_id" v (by decide)]
      exact lookupField_setField_self _ "doctor_id" w

def c8GoodRecord : List (String × Json) := [("id", Json.num 5), ("name", Json.str "A")]

/-- C8 amended witness: the backend record `{id: 5, name: "A"}` comes back
with `id: 5` and `doctor_id: 5`, evaluated through
`admin_doctor_id_normalization`. -/
theorem admin_doctor_id_normalization_witness :
    adminGET (some "doctor")
        (AdminBackendOutcome.reply 200 (Json.arr [Json.obj c8GoodRecord])) =
      AdminResponse.json 200 (Json.arr [Json.obj (normalizeDoctorRecord c8GoodRecord)]) ∧
      lookupField (normalizeDoctorRecord c8GoodRecord) "id" = some (Json.num 5) ∧
      lookupField (normalizeDoctorRecord c8GoodRecord) "doctor_id" = some (Json.num 5) := by
  have h := admin_doctor_id_normalization [c8GoodRecord]
  have h2 := h.2 c8GoodRecord (by simp) (Json.num 5) rfl (by intro hh; cases hh)
  refine ⟨?_, h2.1, ?_⟩
  · simpa using h.1
  · obtain ⟨w, hw, _⟩ := h2.2
    have : w = Json.num 5 := by
      have := hw
      rw [normalizeDoctorRecord] at this
      simp [nullishCoalesce, lookupField, setFieldWire, setField] at this
      exact this.symm
    rw [← this]
    exact hw

end MedicalAtlas
